import Mathlib

/-!
# Verification of the email MCP server (src/index.ts)

A shallow embedding of the translation/validation core of the server:
the configuration resolver (`parseEnv`), the address/entity mappers,
the search-query / fetch-options schema layer, and the five handlers
(`send_email`, `search_emails`, `list_folders`, the inbox resource and
the folders resource) together with their connection-release traces.

External collaborators (the IMAP library `imapflow` and the SMTP library
`nodemailer`) are modelled as behaviour records: each network-bound call
is a field giving the outcome of that call (`Except` for fallible calls).
Handlers are pure functions from a behaviour record and the validated
arguments to the produced result together with a trace of the collaborator
calls they perform, so that resource-release properties are statements
about the trace.
-/

namespace EmailMcp

/-- A JavaScript `Error` object as observed by the handlers: its `name`
and `message` fields. -/
structure ErrObj where
  name : String
  message : String
deriving DecidableEq

/-! ## Configuration resolver (src/index.ts lines 10-30) -/

/-- The relevant slice of `process.env`: each of the six variables read by
`parseEnv` is either present (a string) or absent. -/
structure ProcessEnv where
  EMAIL_USER : Option String
  EMAIL_PASSWORD : Option String
  IMAP_HOST : Option String
  IMAP_PORT : Option String
  SMTP_HOST : Option String
  SMTP_PORT : Option String
deriving DecidableEq

/-- The parsed configuration returned by `parseEnv`: both ports have been
coerced to integers by the `.transform(Number)` step of the schema. -/
structure EnvConfig where
  EMAIL_USER : String
  EMAIL_PASSWORD : String
  IMAP_HOST : String
  IMAP_PORT : Nat
  SMTP_HOST : String
  SMTP_PORT : Nat
deriving DecidableEq

/-- Characters admitted anywhere in the local part of an address by the
email pattern of the validator (letters, digits, underscore, apostrophe, plus,
hyphen, dot). The apostrophe is written by its code point. -/
def isLocalChar (c : Char) : Bool :=
  c.isAlphanum || c == '_' || c.toNat == 39 || c == '+' || c == '-' || c == '.'

/-- Characters admitted as the final character of the local part (the
pattern forbids a trailing dot or apostrophe). -/
def isLocalEndChar (c : Char) : Bool :=
  c.isAlphanum || c == '_' || c == '+' || c == '-'

/-- Characters admitted after the leading character of a domain label. -/
def isLabelChar (c : Char) : Bool :=
  c.isAlphanum || c == '-'

/-- Whether a character list contains two consecutive dots. -/
def hasAdjacentDots : List Char → Bool
  | '.' :: '.' :: _ => true
  | _ :: rest => hasAdjacentDots rest
  | [] => false

/-- Splitting a character list on a separator character (the pieces
between occurrences of the separator, in order). -/
def splitOnChar (c : Char) : List Char → List (List Char)
  | [] => [[]]
  | x :: xs =>
      if x == c then [] :: splitOnChar c xs
      else
        match splitOnChar c xs with
        | r :: rs => (x :: r) :: rs
        | [] => [[x]]

/-- The local part of the email pattern: non-empty, not starting with a
dot, every character in the local class, final character in the stricter
end class. -/
def validLocalPart : List Char → Bool
  | [] => false
  | c :: rest =>
      !(c == '.') && (c :: rest).all isLocalChar &&
        isLocalEndChar ((c :: rest).getLastD '.')

/-- A non-final domain label: a letter or digit followed by letters,
digits or hyphens. -/
def validDnsLabel : List Char → Bool
  | [] => false
  | c :: rest => c.isAlphanum && rest.all isLabelChar

/-- The final domain label: at least two characters, all letters. -/
def validTld (l : List Char) : Bool :=
  decide (2 ≤ l.length) && l.all Char.isAlpha

/-- Models `z.string().email()`: the email pattern of the validator — a local
part, an `@`, then one or more labels separated by dots ending in an
alphabetic top-level label, with no two consecutive dots anywhere. -/
def isEmailSyntax (s : String) : Bool :=
  !(hasAdjacentDots s.toList) &&
  (match splitOnChar '@' s.toList with
   | [loc, dom] =>
       validLocalPart loc &&
       (let labels := splitOnChar '.' dom
        decide (2 ≤ labels.length) &&
        labels.dropLast.all validDnsLabel &&
        validTld (labels.getLastD []))
   | _ => false)

/-- Models the port pattern (one or more digits, nothing else). -/
def digitsOnly (s : String) : Bool :=
  !s.isEmpty && s.toList.all Char.isDigit

/-- Models the `Number(...)` coercion applied by `.transform(Number)` to a
digits-only string. -/
def digitsToNat (s : String) : Nat :=
  s.toList.foldl (fun n c => n * 10 + (c.toNat - 48)) 0

/-- The error thrown by `parseEnv` when validation fails: an
`InvalidEnvError` (its `name` field is set to the class name in the
constructor) with the fixed message. -/
def invalidEnvError : ErrObj :=
  { name := "InvalidEnvError", message := "Environment validation failed:" }

/-- Models `parseEnv` (src/index.ts lines 17-29): `safeParse` of the six
environment variables; on success the configuration with ports coerced to
integers, on any failure a thrown `InvalidEnvError`. -/
def parseEnv (e : ProcessEnv) : Except ErrObj EnvConfig :=
  match e.EMAIL_USER, e.EMAIL_PASSWORD, e.IMAP_HOST, e.IMAP_PORT,
        e.SMTP_HOST, e.SMTP_PORT with
  | some user, some pw, some ihost, some iport, some shost, some sport =>
      if isEmailSyntax user && !pw.isEmpty && !ihost.isEmpty && digitsOnly iport
          && !shost.isEmpty && digitsOnly sport then
        .ok { EMAIL_USER := user, EMAIL_PASSWORD := pw, IMAP_HOST := ihost,
              IMAP_PORT := digitsToNat iport, SMTP_HOST := shost,
              SMTP_PORT := digitsToNat sport }
      else .error invalidEnvError
  | _, _, _, _, _, _ => .error invalidEnvError

/-! ## Entities and the address mapper (src/index.ts lines 32-52, 91-94) -/

/-- Entity `EmailAddress`: optional display name, mandatory address string. -/
structure EmailAddress where
  name : Option String
  address : String
deriving DecidableEq

/-- The transport-native address record (`MessageAddressObject` from
imapflow): both fields may be absent. -/
structure MessageAddressObject where
  name : Option String
  address : Option String
deriving DecidableEq

/-- Models `mapAddress` (src/index.ts lines 91-94): `name` is copied as
is; `address` is `addr.address` with a fallback, i.e. the empty string when the
field is absent (or itself when present — an empty string is falsy and
also yields the empty string). -/
def mapAddress (addr : MessageAddressObject) : EmailAddress :=
  { name := addr.name
    address :=
      match addr.address with
      | some a => if a.isEmpty then "" else a
      | none => "" }

/-- Entity `EmailMessage`: message summary. Dates are modelled by their
`getTime()` value (an integer timestamp). -/
structure EmailMessage where
  id : Nat
  subject : String
  «from» : List EmailAddress
  «to» : List EmailAddress
  date : Int
  text : Option String
  html : Option String
deriving DecidableEq

/-- Entity `EmailFolder`: one mailbox/folder. -/
structure EmailFolder where
  name : String
  path : String
  specialUse : Option String
  flags : List String
deriving DecidableEq

/-! ## Query/option schema layer (src/index.ts lines 138-188) -/

/-- The scalar criteria fields of `searchQuerySchema` (every field except
the recursive `or`). Absent fields are `none`; dates and `modseq` are
modelled as integer timestamps / integers. The `header` record maps
header names to a boolean or a string. -/
structure SearchScalars where
  seq : Option String := none
  answered : Option Bool := none
  deleted : Option Bool := none
  draft : Option Bool := none
  flagged : Option Bool := none
  seen : Option Bool := none
  all : Option Bool := none
  new : Option Bool := none
  old : Option Bool := none
  recent : Option Bool := none
  «from» : Option String := none
  «to» : Option String := none
  cc : Option String := none
  bcc : Option String := none
  body : Option String := none
  subject : Option String := none
  larger : Option Int := none
  smaller : Option Int := none
  uid : Option String := none
  modseq : Option Int := none
  emailId : Option String := none
  threadId : Option String := none
  before : Option Int := none
  «on» : Option Int := none
  since : Option Int := none
  sentBefore : Option Int := none
  sentOn : Option Int := none
  sentSince : Option Int := none
  keyword : Option String := none
  unKeyword : Option String := none
  header : Option (List (String × Sum Bool String)) := none
deriving DecidableEq

/-- A `SearchQuery` request value: the scalar criteria plus the recursive
`or` field holding an optional list of nested queries. -/
inductive SearchQueryInput where
  | mk (scalars : SearchScalars) (orField : Option (List SearchQueryInput))

/-- The scalar-field validation performed by `searchQuerySchema`:
`subject` is declared `z.string().min(1)` (required, non-empty), `larger`
and `smaller` are `z.number().int().positive().optional()`; every other
field carries no value-level refinement beyond its (already modelled)
type. -/
def validScalars (s : SearchScalars) : Bool :=
  (match s.subject with
   | some t => !t.isEmpty
   | none => false) &&
  (match s.larger with
   | some n => decide (0 < n)
   | none => true) &&
  (match s.smaller with
   | some n => decide (0 < n)
   | none => true)

mutual

/-- Models validation of one `searchQuerySchema` node: its scalar fields
plus the recursive `or` array of nested queries. -/
def validSearchQuery : SearchQueryInput → Bool
  | .mk s o => validScalars s && validOrField o

/-- Validation of the optional `or` field. -/
def validOrField : Option (List SearchQueryInput) → Bool
  | none => true
  | some qs => validQueryList qs

/-- Validation of each element of an `or` array. -/
def validQueryList : List SearchQueryInput → Bool
  | [] => true
  | q :: qs => validSearchQuery q && validQueryList qs

end

/-- The `SearchQuery` value in which every field is absent. -/
def emptySearchQuery : SearchQueryInput := .mk {} none

/-- A `SearchQuery` value with the given subject and every other field
absent. -/
def subjectOnlyQuery (s : String) : SearchQueryInput :=
  .mk { subject := some s } none

/-- Models `fetchOptionsSchema` (src/index.ts lines 176-188): every field
optional; `source` is a boolean-or-object union, `headers` a
boolean-or-string-array union. -/
structure FetchOptions where
  uid : Option Bool := none
  flags : Option Bool := none
  bodyStructure : Option Bool := none
  envelope : Option Bool := none
  internalDate : Option Bool := none
  size : Option Bool := none
  source : Option (Sum Bool Unit) := none
  threadId : Option Bool := none
  labels : Option Bool := none
  headers : Option (Sum Bool (List String)) := none
  bodyParts : Option (List String) := none
deriving DecidableEq

/-! ## Collaborator behaviour model -/

/-- The envelope of a message as exposed by the mailbox collaborator:
subject, participants and date. -/
structure Envelope where
  subject : String
  «from» : List MessageAddressObject
  «to» : List MessageAddressObject
  date : Int
deriving DecidableEq

/-- One message item yielded by `client.fetch`: its unique-id and its
envelope. -/
structure FetchedMessage where
  uid : Nat
  envelope : Envelope
deriving DecidableEq

/-- One entry of the response of `client.list()`. -/
structure ListedMailbox where
  name : String
  path : String
  specialUse : Option String
  flags : List String
deriving DecidableEq

/-- The behaviour of one fresh `ImapFlow` client over one invocation:
the outcome of each call the handlers can make. On a successful
uid-list fetch the collaborator yields one fetched message per requested
unique-id, in request order, with the envelope given by `envelopeOf`;
`fetchAllR` is the outcome of the full-range (`1:*`) fetch done by the
inbox resource. -/
structure ImapBehavior where
  connectR : Except ErrObj Unit
  mailboxOpenR : String → Except ErrObj Unit
  searchR : SearchQueryInput → Except ErrObj (List Nat)
  envelopeOf : Nat → Envelope
  fetchR : List Nat → FetchOptions → Except ErrObj Unit
  fetchAllR : Except ErrObj (List FetchedMessage)
  listR : Except ErrObj (List ListedMailbox)
  logoutR : Except ErrObj Unit

/-- The collaborator calls a handler can perform, recorded in order. -/
inductive Event where
  | connect
  | mailboxOpen (folder : String)
  | search
  | fetch (uids : List Nat)
  | fetchAll
  | listMailboxes
  | smtpSend
  | logout
deriving DecidableEq

/-! ## Result envelopes and serialization -/

/-- One text content item of a tool result (its `text` field). -/
structure TextContent where
  text : String
deriving DecidableEq

/-- A tool result: content items plus the error flag (absent in the
success results of the source, which is falsy, modelled as `false`). -/
structure ToolResult where
  content : List TextContent
  isError : Bool
deriving DecidableEq

/-- One entry of the `contents` of a resource result. -/
structure ResourceContents where
  uri : String
  mimeType : String
  text : String
deriving DecidableEq

/-- A resource result. -/
structure ResourceResult where
  contents : List ResourceContents
deriving DecidableEq

/-- A JSON string literal (escaping elided; stands in for the
serialization performed by `JSON.stringify`, which is external). -/
def jsonStr (s : String) : String := "\"" ++ s ++ "\""

/-- A JSON array from rendered items. -/
def jsonArr (items : List String) : String :=
  "[" ++ String.intercalate ", " items ++ "]"

/-- Rendering of one `EmailAddress`. -/
def renderAddress (a : EmailAddress) : String :=
  "\x7b" ++
    (match a.name with
     | some n => "\"name\": " ++ jsonStr n ++ ", "
     | none => "") ++
    "\"address\": " ++ jsonStr a.address ++ "\x7d"

/-- Rendering of one `EmailMessage` summary. -/
def renderMessage (m : EmailMessage) : String :=
  "\x7b\"id\": " ++ toString m.id ++ ", \"subject\": " ++ jsonStr m.subject ++
    ", \"from\": " ++ jsonArr (m.«from».map renderAddress) ++
    ", \"to\": " ++ jsonArr (m.«to».map renderAddress) ++
    ", \"date\": " ++ toString m.date ++ "\x7d"

/-- Stands in for `JSON.stringify(messages, null, 2)`. -/
def renderMessages (msgs : List EmailMessage) : String :=
  jsonArr (msgs.map renderMessage)

/-- Rendering of one `EmailFolder`. -/
def renderFolder (f : EmailFolder) : String :=
  "\x7b\"name\": " ++ jsonStr f.name ++ ", \"path\": " ++ jsonStr f.path ++
    (match f.specialUse with
     | some u => ", \"specialUse\": " ++ jsonStr u
     | none => "") ++
    ", \"flags\": " ++ jsonArr (f.flags.map jsonStr) ++ "\x7d"

/-- Stands in for `JSON.stringify(mailboxes, null, 2)`. -/
def renderFolders (fs : List EmailFolder) : String :=
  jsonArr (fs.map renderFolder)

/-! ## send_email (src/index.ts lines 97-136) -/

/-- The validated arguments of the `send_email` tool. -/
structure SendArgs where
  «to» : String
  subject : String
  text : String
  html : Option String
deriving DecidableEq

/-- The `mailOptions` object passed to `sendMail`. -/
structure MailOptions where
  «from» : String
  «to» : String
  subject : String
  text : String
  html : Option String
deriving DecidableEq

/-- The success value of `sendMail` (only `messageId` is read). -/
structure SendInfo where
  messageId : String
deriving DecidableEq

/-- The behaviour of the shared SMTP transporter: the outcome of
`sendMail` on the given options. -/
structure SmtpBehavior where
  sendR : MailOptions → Except ErrObj SendInfo

/-- The `mailOptions` built by the handler: the configured account as
sender, plus the recipient, subject and bodies of the request. -/
def mailOptionsFor (user : String) (args : SendArgs) : MailOptions :=
  { «from» := user, «to» := args.«to», subject := args.subject,
    text := args.text, html := args.html }

/-- Models the `send_email` handler: `sendMail` inside `try`; on success
a JSON confirmation, on failure the caught error as a flagged error
result. There is no IMAP client and no release step in this handler. -/
def send_email (user : String) (smtp : SmtpBehavior) (args : SendArgs) :
    Except ErrObj ToolResult × List Event :=
  match smtp.sendR (mailOptionsFor user args) with
  | .ok info =>
      (.ok { content := [⟨"\x7b\"messageId\": " ++ jsonStr info.messageId ++
               ", \"status\": \"Email sent successfully\"\x7d"⟩],
             isError := false },
       [.smtpSend])
  | .error e =>
      (.ok { content := [⟨"Error sending email: " ++ e.message⟩],
             isError := true },
       [.smtpSend])

/-! ## search_emails (src/index.ts lines 190-240) -/

/-- The summary pushed for one fetched message (lines 216-222 and
296-302): uid, subject, mapped address lists and date; the `text` and
`html` fields of `EmailMessage` are never assigned. -/
def toSummary (uid : Nat) (env : Envelope) : EmailMessage :=
  { id := uid
    subject := env.subject
    «from» := env.«from».map mapAddress
    «to» := env.«to».map mapAddress
    date := env.date
    text := none
    html := none }

/-- The body of the `try` block of the `search_emails` handler: connect, open
the folder, search, truncate the unique-id list with
`uids.slice(0, limit)`, and (when the truncated list is non-empty) fetch
those unique-ids and push one summary per fetched message in order.
Returns the built `messages` array (or the first failure) together with
the collaborator calls performed. -/
def searchEmailsTrace (b : ImapBehavior) (query : SearchQueryInput)
    (folder : String) (limit : Nat) (fetchOptions : FetchOptions) :
    Except ErrObj (List EmailMessage) × List Event :=
  match b.connectR with
  | .error e => (.error e, [.connect])
  | .ok _ =>
    match b.mailboxOpenR folder with
    | .error e => (.error e, [.connect, .mailboxOpen folder])
    | .ok _ =>
      match b.searchR query with
      | .error e => (.error e, [.connect, .mailboxOpen folder, .search])
      | .ok uids =>
        let limitedUids := uids.take limit
        if 0 < limitedUids.length then
          match b.fetchR limitedUids fetchOptions with
          | .error e =>
              (.error e,
               [.connect, .mailboxOpen folder, .search, .fetch limitedUids])
          | .ok _ =>
              (.ok (limitedUids.map fun u => toSummary u (b.envelopeOf u)),
               [.connect, .mailboxOpen folder, .search, .fetch limitedUids])
        else
          (.ok [], [.connect, .mailboxOpen folder, .search])

/-- Models the full `search_emails` handler: the `try` body, the `catch`
converting any failure into a flagged error result, and the `finally`
performing `client.logout()` exactly once on every path (a failing
logout escapes to the host, as in the source). -/
def search_emails (b : ImapBehavior) (query : SearchQueryInput)
    (folder : String) (limit : Nat) (fetchOptions : FetchOptions) :
    Except ErrObj ToolResult × List Event :=
  let step := searchEmailsTrace b query folder limit fetchOptions
  let res : ToolResult :=
    match step.1 with
    | .ok messages => { content := [⟨renderMessages messages⟩], isError := false }
    | .error e =>
        { content := [⟨"Error searching emails: " ++ e.message⟩], isError := true }
  match b.logoutR with
  | .ok _ => (.ok res, step.2 ++ [.logout])
  | .error e => (.error e, step.2 ++ [.logout])

/-! ## list_folders (src/index.ts lines 242-278) -/

/-- The mailbox-mapping loop of the `list_folders` tool (lines 255-262):
each listed mailbox is pushed as an `EmailFolder` with the same name,
path, special-use tag and flags. -/
def listFoldersMailboxes : List ListedMailbox → List EmailFolder
  | [] => []
  | mailbox :: rest =>
      { name := mailbox.name, path := mailbox.path,
        specialUse := mailbox.specialUse, flags := mailbox.flags } ::
        listFoldersMailboxes rest

/-- The body of the `try` block of the `list_folders` handler. -/
def listFoldersTrace (b : ImapBehavior) :
    Except ErrObj (List EmailFolder) × List Event :=
  match b.connectR with
  | .error e => (.error e, [.connect])
  | .ok _ =>
    match b.listR with
    | .error e => (.error e, [.connect, .listMailboxes])
    | .ok listResponse =>
        (.ok (listFoldersMailboxes listResponse), [.connect, .listMailboxes])

/-- Models the full `list_folders` handler: `try` body, `catch` into a
flagged error result, `finally client.logout()`. -/
def list_folders (b : ImapBehavior) : Except ErrObj ToolResult × List Event :=
  let step := listFoldersTrace b
  let res : ToolResult :=
    match step.1 with
    | .ok mailboxes => { content := [⟨renderFolders mailboxes⟩], isError := false }
    | .error e =>
        { content := [⟨"Error listing folders: " ++ e.message⟩], isError := true }
  match b.logoutR with
  | .ok _ => (.ok res, step.2 ++ [.logout])
  | .error e => (.error e, step.2 ++ [.logout])

/-! ## inbox resource (src/index.ts lines 281-323) -/

/-- Models `messages.sort((a, b) => b.date.getTime() - a.date.getTime())`:
an in-place sort putting later dates first. (The comparator-based
sort of the source is stable; on ties this model may differ in order, which no claim
depends on.) -/
def sortByDateDesc (msgs : List EmailMessage) : List EmailMessage :=
  List.insertionSort (fun a b => b.date ≤ a.date) msgs

/-- The body of the `try` block of the inbox resource: connect, open INBOX,
fetch the full range with envelope projection, map each fetched message
to a summary, sort by date descending and keep the first 10. -/
def inboxTrace (b : ImapBehavior) :
    Except ErrObj (List EmailMessage) × List Event :=
  match b.connectR with
  | .error e => (.error e, [.connect])
  | .ok _ =>
    match b.mailboxOpenR "INBOX" with
    | .error e => (.error e, [.connect, .mailboxOpen "INBOX"])
    | .ok _ =>
      match b.fetchAllR with
      | .error e => (.error e, [.connect, .mailboxOpen "INBOX", .fetchAll])
      | .ok fetched =>
          let messages := fetched.map fun m => toSummary m.uid m.envelope
          let recentMessages := (sortByDateDesc messages).take 10
          (.ok recentMessages, [.connect, .mailboxOpen "INBOX", .fetchAll])

/-- Models the full inbox resource handler: the `catch` block logs and
re-throws (`throw error`) rather than returning a flagged result, and
`finally` performs `client.logout()` on every path. -/
def inboxResource (user : String) (b : ImapBehavior) :
    Except ErrObj ResourceResult × List Event :=
  let step := inboxTrace b
  let afterCatch : Except ErrObj ResourceResult :=
    match step.1 with
    | .ok recentMessages =>
        .ok { contents := [{ uri := "mailto:" ++ user ++ "/inbox",
                             mimeType := "application/json",
                             text := renderMessages recentMessages }] }
    | .error e => .error e
  match b.logoutR with
  | .ok _ => (afterCatch, step.2 ++ [.logout])
  | .error e => (.error e, step.2 ++ [.logout])

/-! ## folders resource (src/index.ts lines 325-359) -/

/-- The mailbox-mapping loop of the folders resource (lines 336-343),
written out separately from the loop of the `list_folders` tool exactly as in
the source. -/
def foldersResourceMailboxes : List ListedMailbox → List EmailFolder
  | [] => []
  | mailbox :: rest =>
      { name := mailbox.name, path := mailbox.path,
        specialUse := mailbox.specialUse, flags := mailbox.flags } ::
        foldersResourceMailboxes rest

/-- The body of the `try` block of the folders resource. -/
def foldersTrace (b : ImapBehavior) :
    Except ErrObj (List EmailFolder) × List Event :=
  match b.connectR with
  | .error e => (.error e, [.connect])
  | .ok _ =>
    match b.listR with
    | .error e => (.error e, [.connect, .listMailboxes])
    | .ok listResponse =>
        (.ok (foldersResourceMailboxes listResponse), [.connect, .listMailboxes])

/-- Models the full folders resource handler: errors are re-thrown to the
host, and `finally` performs `client.logout()` on every path. -/
def foldersResource (user : String) (b : ImapBehavior) :
    Except ErrObj ResourceResult × List Event :=
  let step := foldersTrace b
  let afterCatch : Except ErrObj ResourceResult :=
    match step.1 with
    | .ok mailboxes =>
        .ok { contents := [{ uri := "mailto:" ++ user ++ "/folders",
                             mimeType := "application/json",
                             text := renderFolders mailboxes }] }
    | .error e => .error e
  match b.logoutR with
  | .ok _ => (afterCatch, step.2 ++ [.logout])
  | .error e => (.error e, step.2 ++ [.logout])

/-! ## Sample behaviours used to instantiate the theorems -/

/-- A transport error used as a concrete failure. -/
def connectFailure : ErrObj := { name := "Error", message := "ECONNREFUSED" }

/-- A delivery transporter whose `sendMail` always fails. -/
def failingSmtp : SmtpBehavior :=
  ⟨fun _ => .error { name := "Error", message := "connect ECONNREFUSED" }⟩

/-- An IMAP behaviour whose `connect` fails and whose `logout` succeeds. -/
def failingImap : ImapBehavior :=
  { connectR := .error connectFailure
    mailboxOpenR := fun _ => .ok ()
    searchR := fun _ => .ok []
    envelopeOf := fun _ => { subject := "", «from» := [], «to» := [], date := 0 }
    fetchR := fun _ _ => .ok ()
    fetchAllR := .ok []
    listR := .ok []
    logoutR := .ok () }

/-- A concrete mailbox content for instantiations. -/
def sampleEnvelope (u : Nat) : Envelope :=
  { subject := "subject"
    «from» := [{ name := none, address := some "a@b.co" }]
    «to» := []
    date := Int.ofNat u }

/-- A healthy IMAP behaviour whose search returns the unique-ids
`[5, 3, 8]`. -/
def sampleImap : ImapBehavior :=
  { connectR := .ok ()
    mailboxOpenR := fun _ => .ok ()
    searchR := fun _ => .ok [5, 3, 8]
    envelopeOf := sampleEnvelope
    fetchR := fun _ _ => .ok ()
    fetchAllR := .ok []
    listR := .ok []
    logoutR := .ok () }

/-- An IMAP behaviour whose inbox holds two messages with distinct
dates. -/
def sampleInboxImap : ImapBehavior :=
  { connectR := .ok ()
    mailboxOpenR := fun _ => .ok ()
    searchR := fun _ => .ok []
    envelopeOf := sampleEnvelope
    fetchR := fun _ _ => .ok ()
    fetchAllR := .ok [⟨1, sampleEnvelope 3⟩, ⟨2, sampleEnvelope 7⟩]
    listR := .ok []
    logoutR := .ok () }

/-- A well-formed startup environment. -/
def goodEnv : ProcessEnv :=
  { EMAIL_USER := some "user@example.com", EMAIL_PASSWORD := some "hunter2",
    IMAP_HOST := some "imap.example.com", IMAP_PORT := some "993",
    SMTP_HOST := some "smtp.example.com", SMTP_PORT := some "465" }

/-- The empty startup environment. -/
def emptyEnv : ProcessEnv :=
  { EMAIL_USER := none, EMAIL_PASSWORD := none, IMAP_HOST := none,
    IMAP_PORT := none, SMTP_HOST := none, SMTP_PORT := none }

/-- The configuration `goodEnv` resolves to. -/
def goodConfig : EnvConfig :=
  { EMAIL_USER := "user@example.com", EMAIL_PASSWORD := "hunter2",
    IMAP_HOST := "imap.example.com", IMAP_PORT := digitsToNat "993",
    SMTP_HOST := "smtp.example.com", SMTP_PORT := digitsToNat "465" }

/-! ## Helper lemmas: the `try`-block traces never contain a logout -/

theorem searchEmailsTrace_count_logout (b : ImapBehavior) (q : SearchQueryInput)
    (folder : String) (limit : Nat) (fo : FetchOptions) :
    ((searchEmailsTrace b q folder limit fo).2).count Event.logout = 0 := by
  unfold searchEmailsTrace
  cases b.connectR with
  | error e => rfl
  | ok u =>
      cases b.mailboxOpenR folder with
      | error e => rfl
      | ok u2 =>
          cases b.searchR q with
          | error e => rfl
          | ok uids =>
              by_cases h : 0 < (List.take limit uids).length
              · simp only [h, if_true]
                cases b.fetchR (List.take limit uids) fo with
                | error e => rfl
                | ok u3 => rfl
              · simp only [h, if_false]
                rfl

theorem listFoldersTrace_count_logout (b : ImapBehavior) :
    ((listFoldersTrace b).2).count Event.logout = 0 := by
  unfold listFoldersTrace
  repeat' split
  all_goals rfl

theorem inboxTrace_count_logout (b : ImapBehavior) :
    ((inboxTrace b).2).count Event.logout = 0 := by
  unfold inboxTrace
  repeat' split
  all_goals rfl

theorem foldersTrace_count_logout (b : ImapBehavior) :
    ((foldersTrace b).2).count Event.logout = 0 := by
  unfold foldersTrace
  repeat' split
  all_goals rfl

/-! ## C4: the address mapper -/

/-- C4: `mapAddress` is a pure total function; when the transport-native
record has no `address` field the mapped address is the empty
string, and `name` is preserved exactly (present when present, absent
when absent). -/
theorem mapAddress_total_default (addr : MessageAddressObject) :
    (addr.address = none → (mapAddress addr).address = "") ∧
    (mapAddress addr).name = addr.name := by
  refine ⟨fun h => ?_, rfl⟩
  simp [mapAddress, h]

theorem mapAddress_total_default_witness :
    (mapAddress { name := some "Ann", address := none }).address = "" ∧
    (mapAddress { name := some "Ann", address := none }).name = some "Ann" :=
  ⟨(mapAddress_total_default { name := some "Ann", address := none }).1 rfl,
   (mapAddress_total_default { name := some "Ann", address := none }).2⟩

/-! ## C10: the two folder-mapping loops agree -/

/-- C10: for every transport list-response, the `EmailFolder` array built
by the mapping loop of the `list_folders` tool equals the one built by the
mapping loop of the folders resource (same name, path, special-use tag and
flags, in the same order). -/
theorem folder_mappings_agree (resp : List ListedMailbox) :
    listFoldersMailboxes resp = foldersResourceMailboxes resp := by
  induction resp with
  | nil => rfl
  | cons mailbox rest ih =>
      simp [listFoldersMailboxes, foldersResourceMailboxes, ih]

/-! ## C3: the schema rejects the empty query (subject is required) -/

/-- C3 counterexample: the `SearchQuery` value in which every scalar
criteria field is absent is rejected by the schema layer, contrary to
the claim that an empty query is valid. -/
theorem emptySearchQuery_rejected : validSearchQuery emptySearchQuery = false := by
  simp [validSearchQuery, validOrField, validScalars, emptySearchQuery]

/-- C3 amended: every leaf field of `SearchQuery` is optional except
`subject`, which is required and must be non-empty: a query whose only
present field is a non-empty `subject` is accepted, and the fully empty
query is rejected. -/
theorem searchQuery_subject_required (s : String) (h : s.isEmpty = false) :
    validSearchQuery (subjectOnlyQuery s) = true ∧
    validSearchQuery emptySearchQuery = false := by
  constructor
  · simp [validSearchQuery, validOrField, validScalars, subjectOnlyQuery, h]
  · simp [validSearchQuery, validOrField, validScalars, emptySearchQuery]

theorem searchQuery_subject_required_witness :
    validSearchQuery (subjectOnlyQuery "meeting") = true ∧
    validSearchQuery emptySearchQuery = false :=
  searchQuery_subject_required "meeting" rfl

/-! ## C5: send_email returns a flagged error result on transport failure -/

/-- C5: when the delivery transport fails, `send_email` returns (rather
than throwing to the host) a result whose error flag is set and whose
text contains the underlying failure message. -/
theorem send_email_failure_flagged (user : String) (smtp : SmtpBehavior)
    (args : SendArgs) (e : ErrObj)
    (h : smtp.sendR (mailOptionsFor user args) = .error e) :
    (send_email user smtp args).1 =
      .ok { content := [⟨"Error sending email: " ++ e.message⟩], isError := true } ∧
    ∃ p q, "Error sending email: " ++ e.message = p ++ e.message ++ q := by
  refine ⟨?_, "Error sending email: ", "", ?_⟩
  · simp [send_email, h]
  · rw [String.append_empty]

theorem send_email_failure_flagged_witness :
    (send_email "user@example.com" failingSmtp
        { «to» := "a@b.co", subject := "s", text := "t", html := none }).1 =
      .ok { content := [⟨"Error sending email: " ++ "connect ECONNREFUSED"⟩],
            isError := true } :=
  (send_email_failure_flagged "user@example.com" failingSmtp
    { «to» := "a@b.co", subject := "s", text := "t", html := none }
    { name := "Error", message := "connect ECONNREFUSED" } rfl).1

/-! ## C2: connection release -/

/-- C2 counterexample: `send_email` never calls `client.logout` (it uses
the shared delivery transporter and owns no IMAP connection), so the
claim that the `client.logout` release step runs exactly once for every
operation including `send_email` fails on this invocation. -/
theorem send_email_no_logout_counterexample :
    ¬ ((send_email "user@example.com" failingSmtp
          { «to» := "a@b.co", subject := "s", text := "t", html := none }).2.count
        Event.logout = 1) := by
  decide

/-- C2 amended: for each of the four mailbox operations (`search_emails`,
`list_folders`, the inbox resource and the folders resource),
`client.logout` executes exactly once before the result or
error of the operation is returned, on every outcome; `send_email` has no connection-release
step and performs zero logouts. -/
theorem logout_exactly_once (user : String) (b : ImapBehavior)
    (smtp : SmtpBehavior) (q : SearchQueryInput) (folder : String) (limit : Nat)
    (fo : FetchOptions) (args : SendArgs) :
    (search_emails b q folder limit fo).2.count Event.logout = 1 ∧
    (list_folders b).2.count Event.logout = 1 ∧
    (inboxResource user b).2.count Event.logout = 1 ∧
    (foldersResource user b).2.count Event.logout = 1 ∧
    (send_email user smtp args).2.count Event.logout = 0 := by
  refine ⟨?_, ?_, ?_, ?_, ?_⟩
  · unfold search_emails
    cases b.logoutR <;>
      simp [List.count_append, searchEmailsTrace_count_logout, List.count_cons]
  · unfold list_folders
    cases b.logoutR <;>
      simp [List.count_append, listFoldersTrace_count_logout, List.count_cons]
  · unfold inboxResource
    cases b.logoutR <;>
      simp [List.count_append, inboxTrace_count_logout, List.count_cons]
  · unfold foldersResource
    cases b.logoutR <;>
      simp [List.count_append, foldersTrace_count_logout, List.count_cons]
  · unfold send_email
    cases smtp.sendR (mailOptionsFor user args) <;> rfl

/-! ## C6: resources re-raise transport errors, still releasing -/

/-- C6: when the `try` body of the inbox resource or of the folders
resource fails, the resource handler re-raises that error to the host
(rather than returning a flagged error result, the opposite of the tool
operations), and the connection is still released: the trace holds
exactly one logout. -/
theorem resources_rethrow (user : String) (b : ImapBehavior) (e : ErrObj)
    (hlog : b.logoutR = .ok ()) :
    ((inboxTrace b).1 = .error e → (inboxResource user b).1 = .error e) ∧
    ((foldersTrace b).1 = .error e → (foldersResource user b).1 = .error e) ∧
    (inboxResource user b).2.count Event.logout = 1 ∧
    (foldersResource user b).2.count Event.logout = 1 := by
  refine ⟨fun h => ?_, fun h => ?_, ?_, ?_⟩
  · simp [inboxResource, h, hlog]
  · simp [foldersResource, h, hlog]
  · unfold inboxResource
    cases b.logoutR <;>
      simp [List.count_append, inboxTrace_count_logout, List.count_cons]
  · unfold foldersResource
    cases b.logoutR <;>
      simp [List.count_append, foldersTrace_count_logout, List.count_cons]

theorem resources_rethrow_witness :
    (inboxResource "user@example.com" failingImap).1 = .error connectFailure ∧
    (foldersResource "user@example.com" failingImap).1 = .error connectFailure ∧
    (inboxResource "user@example.com" failingImap).2.count Event.logout = 1 :=
  ⟨(resources_rethrow "user@example.com" failingImap connectFailure rfl).1 rfl,
   (resources_rethrow "user@example.com" failingImap connectFailure rfl).2.1 rfl,
   (resources_rethrow "user@example.com" failingImap connectFailure rfl).2.2.1⟩

/-! ## C1: search_emails truncation and order -/

/-- C1: on a successful search returning `uids`, the `messages` array
built by `search_emails` is exactly the messages of the first `limit`
unique-ids in the relative order of the search (`uids.slice(0, limit)`, one
summary per unique-id, no re-sorting): when more than `limit` unique-ids
match it has exactly `limit` entries, otherwise exactly one entry per
match. -/
theorem search_emails_limit_order (b : ImapBehavior) (q : SearchQueryInput)
    (folder : String) (limit : Nat) (fo : FetchOptions) (uids : List Nat)
    (hc : b.connectR = .ok ()) (ho : b.mailboxOpenR folder = .ok ())
    (hs : b.searchR q = .ok uids) (hf : b.fetchR (uids.take limit) fo = .ok ()) :
    (searchEmailsTrace b q folder limit fo).1 =
      .ok ((uids.take limit).map fun u => toSummary u (b.envelopeOf u)) ∧
    ((uids.take limit).map fun u => toSummary u (b.envelopeOf u)).map EmailMessage.id
      = uids.take limit ∧
    (limit < uids.length →
      ((uids.take limit).map fun u => toSummary u (b.envelopeOf u)).length = limit) ∧
    (uids.length ≤ limit →
      ((uids.take limit).map fun u => toSummary u (b.envelopeOf u)).length
        = uids.length) := by
  refine ⟨?_, ?_, fun hlt => ?_, fun hle => ?_⟩
  · unfold searchEmailsTrace
    simp only [hc, ho, hs]
    by_cases h : 0 < (List.take limit uids).length
    · rw [if_pos h, hf]
    · have h0 : List.take limit uids = [] :=
        List.length_eq_zero.mp (Nat.eq_zero_of_not_pos h)
      simp [h0]
  · simp [List.map_map, Function.comp_def, toSummary]
  · simp only [List.length_map, List.length_take]
    omega
  · simp only [List.length_map, List.length_take]
    omega

theorem search_emails_limit_order_witness :
    (searchEmailsTrace sampleImap emptySearchQuery "INBOX" 2 {}).1 =
      .ok [toSummary 5 (sampleEnvelope 5), toSummary 3 (sampleEnvelope 3)] ∧
    [toSummary 5 (sampleEnvelope 5), toSummary 3 (sampleEnvelope 3)].length = 2 :=
  ⟨(search_emails_limit_order sampleImap emptySearchQuery "INBOX" 2 {} [5, 3, 8]
      rfl rfl rfl rfl).1,
   (search_emails_limit_order sampleImap emptySearchQuery "INBOX" 2 {} [5, 3, 8]
      rfl rfl rfl rfl).2.2.1 (by decide)⟩

/-! ## C9: search summaries never populate text/html -/

/-- C9: for every `search_emails` call and every `FetchOptions` value,
each `EmailMessage` in the built `messages` array leaves its `text` and
`html` fields unpopulated (the handler fetches per options but never
assigns body parts into the summary). -/
theorem search_emails_no_body (b : ImapBehavior) (q : SearchQueryInput)
    (folder : String) (limit : Nat) (fo : FetchOptions)
    (msgs : List EmailMessage)
    (h : (searchEmailsTrace b q folder limit fo).1 = .ok msgs) :
    ∀ m ∈ msgs, m.text = none ∧ m.html = none := by
  unfold searchEmailsTrace at h
  cases hcr : b.connectR with
  | error e => simp [hcr] at h
  | ok u =>
    simp only [hcr] at h
    cases hmo : b.mailboxOpenR folder with
    | error e => simp [hmo] at h
    | ok u2 =>
      simp only [hmo] at h
      cases hsr : b.searchR q with
      | error e => simp [hsr] at h
      | ok uids =>
        simp only [hsr] at h
        by_cases hl : 0 < (List.take limit uids).length
        · simp only [hl, if_true] at h
          cases hfr : b.fetchR (List.take limit uids) fo with
          | error e => simp [hfr] at h
          | ok u3 =>
            simp only [hfr, Except.ok.injEq] at h
            intro m hm
            rw [← h] at hm
            obtain ⟨uu, hu, rfl⟩ := List.mem_map.mp hm
            exact ⟨rfl, rfl⟩
        · simp only [hl, if_false, Except.ok.injEq] at h
          intro m hm
          rw [← h] at hm
          simp at hm

theorem search_emails_no_body_witness :
    (toSummary 5 (sampleEnvelope 5)).text = none ∧
    (toSummary 5 (sampleEnvelope 5)).html = none :=
  search_emails_no_body sampleImap emptySearchQuery "INBOX" 2 {}
    [toSummary 5 (sampleEnvelope 5), toSummary 3 (sampleEnvelope 3)] rfl
    (toSummary 5 (sampleEnvelope 5)) (List.mem_cons_self _ _)

/-! ## C7: the inbox resource returns the 10 most recent messages -/

/-- For a message list with pairwise-distinct dates, the first 10
elements of the date-descending sort are: of length `min 10 n`, strictly
descending in date, drawn from the input, and date-wise above every
element left out. -/
theorem take_sortByDateDesc_spec (msgs : List EmailMessage)
    (hd : msgs.Pairwise fun a b => a.date ≠ b.date) :
    ((sortByDateDesc msgs).take 10).length = min 10 msgs.length ∧
    ((sortByDateDesc msgs).take 10).Pairwise (fun x y => y.date < x.date) ∧
    (∀ x ∈ (sortByDateDesc msgs).take 10, x ∈ msgs) ∧
    (∀ x ∈ (sortByDateDesc msgs).take 10, ∀ y ∈ msgs,
      y ∉ (sortByDateDesc msgs).take 10 → y.date < x.date) := by
  have hperm : List.Perm (sortByDateDesc msgs) msgs :=
    List.perm_insertionSort _ msgs
  have hsorted : (sortByDateDesc msgs).Pairwise fun a b => b.date ≤ a.date := by
    haveI : IsTotal EmailMessage fun a b => b.date ≤ a.date :=
      ⟨fun a b => le_total b.date a.date⟩
    haveI : IsTrans EmailMessage fun a b => b.date ≤ a.date :=
      ⟨fun _ _ _ h1 h2 => le_trans h2 h1⟩
    exact List.sorted_insertionSort _ msgs
  have hne : (sortByDateDesc msgs).Pairwise fun a b => a.date ≠ b.date :=
    (hperm.pairwise_iff fun h => Ne.symm h).mpr hd
  have hstrict : (sortByDateDesc msgs).Pairwise fun a b => b.date < a.date :=
    (hsorted.and hne).imp fun h => lt_of_le_of_ne h.1 (Ne.symm h.2)
  have hsplit : sortByDateDesc msgs =
      (sortByDateDesc msgs).take 10 ++ (sortByDateDesc msgs).drop 10 :=
    (List.take_append_drop 10 _).symm
  refine ⟨?_, ?_, ?_, ?_⟩
  · rw [List.length_take, hperm.length_eq]
  · exact hstrict.sublist (List.take_sublist 10 _)
  · exact fun x hx => hperm.mem_iff.mp (List.take_subset 10 _ hx)
  · intro x hx y hy hyn
    have hys : y ∈ sortByDateDesc msgs := hperm.mem_iff.mpr hy
    have hyd : y ∈ (sortByDateDesc msgs).drop 10 := by
      rcases List.mem_append.mp (hsplit ▸ hys) with h1 | h2
      · exact absurd h1 hyn
      · exact h2
    exact (List.pairwise_append.mp (hsplit ▸ hstrict)).2.2 x hx y hyd

/-- C7: on a successful inbox fetch whose messages have pairwise-distinct
dates, the result of the inbox resource is exactly the 10 messages with the
largest dates sorted by date descending (all of them, still sorted
descending, when at most 10 messages exist): the returned list is the
10-element date-descending prefix of the sorted mailbox, has length
`min 10 M`, is strictly descending in date, is drawn from the mailbox,
and every message left out has a smaller date than every message
returned. -/
theorem inbox_ten_most_recent (b : ImapBehavior) (fetched : List FetchedMessage)
    (hc : b.connectR = .ok ()) (ho : b.mailboxOpenR "INBOX" = .ok ())
    (hf : b.fetchAllR = .ok fetched)
    (hd : (fetched.map fun m => toSummary m.uid m.envelope).Pairwise
            fun a b => a.date ≠ b.date) :
    (inboxTrace b).1 =
      .ok ((sortByDateDesc (fetched.map fun m => toSummary m.uid m.envelope)).take 10) ∧
    ((sortByDateDesc (fetched.map fun m => toSummary m.uid m.envelope)).take 10).length
      = min 10 fetched.length ∧
    ((sortByDateDesc (fetched.map fun m => toSummary m.uid m.envelope)).take 10).Pairwise
      (fun x y => y.date < x.date) ∧
    (∀ x ∈ (sortByDateDesc (fetched.map fun m => toSummary m.uid m.envelope)).take 10,
      x ∈ fetched.map fun m => toSummary m.uid m.envelope) ∧
    (∀ x ∈ (sortByDateDesc (fetched.map fun m => toSummary m.uid m.envelope)).take 10,
      ∀ y ∈ fetched.map fun m => toSummary m.uid m.envelope,
        y ∉ (sortByDateDesc (fetched.map fun m => toSummary m.uid m.envelope)).take 10 →
          y.date < x.date) := by
  obtain ⟨h1, h2, h3, h4⟩ := take_sortByDateDesc_spec
    (fetched.map fun m => toSummary m.uid m.envelope) hd
  refine ⟨?_, ?_, h2, h3, h4⟩
  · unfold inboxTrace
    simp only [hc, ho, hf]
  · rw [h1, List.length_map]

theorem inbox_ten_most_recent_witness :
    (inboxTrace sampleInboxImap).1 =
      .ok ((sortByDateDesc ([(⟨1, sampleEnvelope 3⟩ : FetchedMessage),
              ⟨2, sampleEnvelope 7⟩].map fun m => toSummary m.uid m.envelope)).take 10) ∧
    ((sortByDateDesc ([(⟨1, sampleEnvelope 3⟩ : FetchedMessage),
        ⟨2, sampleEnvelope 7⟩].map fun m => toSummary m.uid m.envelope)).take 10).length
      = min 10 2 :=
  ⟨(inbox_ten_most_recent sampleInboxImap
      [⟨1, sampleEnvelope 3⟩, ⟨2, sampleEnvelope 7⟩] rfl rfl rfl (by decide)).1,
   (inbox_ten_most_recent sampleInboxImap
      [⟨1, sampleEnvelope 3⟩, ⟨2, sampleEnvelope 7⟩] rfl rfl rfl (by decide)).2.1⟩

/-! ## C8: the configuration resolver -/

/-- Any environment with a required variable absent is rejected with the
`InvalidEnvError`. -/
theorem parseEnv_missing (e : ProcessEnv)
    (h : e.EMAIL_USER = none ∨ e.EMAIL_PASSWORD = none ∨ e.IMAP_HOST = none ∨
         e.IMAP_PORT = none ∨ e.SMTP_HOST = none ∨ e.SMTP_PORT = none) :
    parseEnv e = .error invalidEnvError := by
  obtain ⟨u, p, ihost, iport, shost, sport⟩ := e
  cases u <;> cases p <;> cases ihost <;> cases iport <;> cases shost <;> cases sport <;>
    first
      | rfl
      | simp_all

/-- Any environment whose account address fails the email pattern or
whose port values are not digits-only is rejected with the
`InvalidEnvError`. -/
theorem parseEnv_invalid_value (e : ProcessEnv)
    (h : (∃ u, e.EMAIL_USER = some u ∧ isEmailSyntax u = false) ∨
         (∃ s, e.IMAP_PORT = some s ∧ digitsOnly s = false) ∨
         (∃ s, e.SMTP_PORT = some s ∧ digitsOnly s = false)) :
    parseEnv e = .error invalidEnvError := by
  obtain ⟨u, p, ihost, iport, shost, sport⟩ := e
  rcases h with ⟨x, hx, hv⟩ | ⟨x, hx, hv⟩ | ⟨x, hx, hv⟩ <;>
    cases u <;> cases p <;> cases ihost <;> cases iport <;> cases shost <;> cases sport <;>
      first
        | rfl
        | simp_all [parseEnv]

/-- C8: the resolver accepts every startup environment in which all six
required values are present and well-formed, coercing both port strings
to their integer values; and it rejects — failing with the distinguished
`InvalidEnvError` whose message names validation — every environment in
which a required value is missing, the account address is not
email-syntax, or a port is not a digits-only string. -/
theorem parseEnv_validation (e : ProcessEnv) :
    (∀ user pw ihost iport shost sport,
      e.EMAIL_USER = some user → e.EMAIL_PASSWORD = some pw →
      e.IMAP_HOST = some ihost → e.IMAP_PORT = some iport →
      e.SMTP_HOST = some shost → e.SMTP_PORT = some sport →
      isEmailSyntax user = true → pw.isEmpty = false → ihost.isEmpty = false →
      digitsOnly iport = true → shost.isEmpty = false → digitsOnly sport = true →
      parseEnv e = .ok { EMAIL_USER := user, EMAIL_PASSWORD := pw,
                         IMAP_HOST := ihost, IMAP_PORT := digitsToNat iport,
                         SMTP_HOST := shost, SMTP_PORT := digitsToNat sport }) ∧
    ((e.EMAIL_USER = none ∨ e.EMAIL_PASSWORD = none ∨ e.IMAP_HOST = none ∨
        e.IMAP_PORT = none ∨ e.SMTP_HOST = none ∨ e.SMTP_PORT = none ∨
        (∃ u, e.EMAIL_USER = some u ∧ isEmailSyntax u = false) ∨
        (∃ s, e.IMAP_PORT = some s ∧ digitsOnly s = false) ∨
        (∃ s, e.SMTP_PORT = some s ∧ digitsOnly s = false)) →
      parseEnv e = .error invalidEnvError ∧
      invalidEnvError.name = "InvalidEnvError" ∧
      invalidEnvError.message = "Environment validation failed:") := by
  constructor
  · intro user pw ihost iport shost sport h1 h2 h3 h4 h5 h6 v1 v2 v3 v4 v5 v6
    simp [parseEnv, h1, h2, h3, h4, h5, h6, v1, v2, v3, v4, v5, v6]
  · intro hbad
    refine ⟨?_, rfl, rfl⟩
    rcases hbad with h | h | h | h | h | h | h | h | h
    · exact parseEnv_missing e (Or.inl h)
    · exact parseEnv_missing e (Or.inr (Or.inl h))
    · exact parseEnv_missing e (Or.inr (Or.inr (Or.inl h)))
    · exact parseEnv_missing e (Or.inr (Or.inr (Or.inr (Or.inl h))))
    · exact parseEnv_missing e (Or.inr (Or.inr (Or.inr (Or.inr (Or.inl h)))))
    · exact parseEnv_missing e (Or.inr (Or.inr (Or.inr (Or.inr (Or.inr h)))))
    · exact parseEnv_invalid_value e (Or.inl h)
    · exact parseEnv_invalid_value e (Or.inr (Or.inl h))
    · exact parseEnv_invalid_value e (Or.inr (Or.inr h))

theorem parseEnv_validation_witness :
    parseEnv goodEnv = .ok goodConfig ∧
    parseEnv emptyEnv = .error invalidEnvError :=
  ⟨(parseEnv_validation goodEnv).1 "user@example.com" "hunter2"
      "imap.example.com" "993" "smtp.example.com" "465"
      rfl rfl rfl rfl rfl rfl rfl rfl rfl rfl rfl rfl,
   ((parseEnv_validation emptyEnv).2 (Or.inl rfl)).1⟩

end EmailMcp
